import Mathlib

/-!
Verification of the Crawler2 device-configuration protocol engine.

The repository is a browser serial configurator for an ESC (electronic speed
controller).  Its protocol engine lives in `src/script.js` (three concatenated
dialect variants) and in the two unnamed source parts.  This development gives
a shallow embedding of that engine:

* `crc16A` — the Variant A checksum (`crc16`, src/script.js lines 17–31,
  duplicated at 188–199 and in both unnamed parts);
* `crc16B` — the Variant B checksum (`crc16`, src/script.js lines 503–512)
  and `sendCommandPacket`, the packet builder of `sendCommand` (515–526);
* `spLoop` / `sendPacketModel` — the echo-aware response read loop of
  `sendPacket` (src/script.js 204–243), driven by an explicit list of
  timestamped transport read events;
* `readChunkLoop` / `readAllResult` — the chunked EEPROM read orchestration
  in `handleConnection` (src/script.js 266–313);
* `handleSaveEncode` / `parseSettings` — the settings codec
  (src/script.js 326–339 and 385–403).

JavaScript numbers are modeled as exact rationals where fractional values can
occur (the settings codec: `(kv - 20) / 40` is float division) and as `Nat`
where the source only ever manipulates integers (checksums, buffers).  All
concrete values appearing in the theorems keep every intermediate result
exactly representable as an IEEE double, where rational arithmetic and
JavaScript arithmetic coincide.
-/

namespace Crawler

set_option maxRecDepth 100000

/-! ## Variant A checksum (src/script.js 17–31) -/

/-- Inner 8-iteration loop of Variant A `crc16`: the byte `xb` is consumed from
its least-significant bit; when `(xb & 1) ^ (crc & 1)` is set, the checksum is
right-shifted and XORed with `0xA001`, otherwise right-shifted only, and `xb`
is shifted right each iteration. -/
def crcAInner : Nat → Nat → Nat → Nat
  | 0, _, crc => crc
  | j + 1, xb, crc =>
      crcAInner j (xb >>> 1)
        (if ((xb &&& 1) ^^^ (crc &&& 1)) ≠ 0 then (crc >>> 1) ^^^ 0xA001 else crc >>> 1)

/-- Variant A `crc16` (src/script.js 17–31): initial value 0, per-byte inner
loop, final mask `& 0xFFFF`. -/
def crc16A (data : List Nat) : Nat :=
  (data.foldl (fun crc b => crcAInner 8 b crc) 0) &&& 0xFFFF

/-- One bit step of the claim's description of Variant A: if (input bit `j` of
the byte XOR checksum bit 0) is set then right-shift and XOR with `0xA001`,
else right-shift only. -/
def crcASpecBit (byte j crc : Nat) : Nat :=
  if (byte.testBit j != crc.testBit 0) then (crc >>> 1) ^^^ 0xA001 else crc >>> 1

/-- Claim-side description of the Variant A inner loop: consume bits `j`,
`j+1`, … of the byte (LSB first when started at `j = 0`), `n` of them. -/
def crcASpecFrom (byte : Nat) : Nat → Nat → Nat → Nat
  | 0, _, crc => crc
  | n + 1, j, crc => crcASpecFrom byte n (j + 1) (crcASpecBit byte j crc)

/-- Variant A checksum as worded in the specification: for each byte, for 8
iterations, consume the byte bit-by-bit LSB first. -/
def crc16ASpec (data : List Nat) : Nat :=
  (data.foldl (fun crc b => crcASpecFrom b 8 0 crc) 0) &&& 0xFFFF

/-! ## Variant B checksum and `sendCommand` packets (src/script.js 503–526) -/

/-- Inner 8-iteration loop of Variant B `crc16`: left-shift, XOR with `0x1021`
when the top bit (bit 15) was set before the shift.  As in the JavaScript, no
intermediate masking is performed. -/
def crcBInner : Nat → Nat → Nat
  | 0, crc => crc
  | j + 1, crc =>
      crcBInner j (if crc &&& 0x8000 ≠ 0 then (crc <<< 1) ^^^ 0x1021 else crc <<< 1)

/-- Variant B `crc16` (src/script.js 503–512): checksum starts at 0; each byte
is XORed in shifted left 8; final mask `& 0xFFFF`. -/
def crc16B (data : List Nat) : Nat :=
  (data.foldl (fun crc b => crcBInner 8 (crc ^^^ (b <<< 8))) 0) &&& 0xFFFF

/-- One step of the reference CRC-16/XMODEM algorithm, keeping the register
a 16-bit value at every step. -/
def xmodemStep (crc : Nat) : Nat :=
  (if crc.testBit 15 then (crc <<< 1) ^^^ 0x1021 else crc <<< 1) &&& 0xFFFF

/-- Eight reference XMODEM steps. -/
def xmodemIter : Nat → Nat → Nat
  | 0, crc => crc
  | j + 1, crc => xmodemIter j (xmodemStep crc)

/-- Reference CRC-16/XMODEM with initial value 0 and a genuinely 16-bit
register: each data byte (reduced to 8 bits) is XORed into the high byte of
the register, followed by eight polynomial steps. -/
def crc16Xmodem (data : List Nat) : Nat :=
  data.foldl (fun crc b => xmodemIter 8 ((crc ^^^ ((b % 256) <<< 8)) &&& 0xFFFF)) 0

/-- Packet built by `sendCommand` (src/script.js 515–526): preamble `0x2F`,
command, big-endian address, parameter count, parameters, then the Variant B
checksum computed over everything except the preamble and appended high byte
first. -/
def sendCommandPacket (cmd addr : Nat) (params : List Nat) : List Nat :=
  let header := [0x2F, cmd, (addr >>> 8) &&& 0xFF, addr &&& 0xFF, params.length]
  let payload := header ++ params
  let crc := crc16B (payload.drop 1)
  payload ++ [(crc >>> 8) &&& 0xFF, crc &&& 0xFF]

/-! ## The `sendPacket` response read loop (src/script.js 204–243)

The loop is driven by the transport: each `reader.read()` either resolves at
some wall-clock time with a chunk of bytes, or reports `done`.  We reify the
sequence of read results an execution observes as a list of events.  An
exhausted event list models a `reader.read()` that never resolves: the
JavaScript `await` then suspends forever, which the model records as the
outcome `blocked`. -/

/-- One result of `await reader.read()`: bytes arriving at absolute time `t`
(milliseconds since the loop started), or stream closure (`done === true`). -/
inductive ReadEv where
  | data (t : Nat) (bytes : List Nat)
  | closed
deriving DecidableEq, Repr

/-- How one `sendPacket` invocation ends.  `ackReturn` is the in-loop
`return buffer` guarded by the ACK test (line 233); `nackReturn` is the
`return null` on a NACK byte (line 238); `timeoutReturn` is the fall-through
`return buffer.length > 0 ? buffer : null` (line 243), reached on loop-budget
expiry or on `done`; `blocked` means a read never resolved. -/
inductive SPOutcome where
  | ackReturn (buf : List Nat)
  | nackReturn
  | timeoutReturn (buf : List Nat)
  | blocked
deriving DecidableEq, Repr

/-- `targetLength` from src/script.js line 221:
`packet.length + expectedDataBytes + (expectedDataBytes > 0 ? 3 : 1)`. -/
def targetLength (packetLen expectedDataBytes : Nat) : Nat :=
  packetLen + expectedDataBytes + (if 0 < expectedDataBytes then 3 else 1)

/-- The read loop of `sendPacket` (src/script.js 226–243).  `now` is the time
at which the previous read resolved (0 before the first read); the `while`
condition `Date.now() - start < 1000` is evaluated before each read.  After a
chunk arrives the code first tests for a trailing ACK `0x30` at or beyond
`targetLength`, then scans the whole buffer for the NACK bytes `0xC1`/`0xC2`. -/
def spLoop (tgt : Nat) : List ReadEv → Nat → List Nat → SPOutcome
  | [], now, buffer =>
      if 1000 ≤ now then .timeoutReturn buffer else .blocked
  | ev :: rest, now, buffer =>
      if 1000 ≤ now then .timeoutReturn buffer
      else
        match ev with
        | .closed => .timeoutReturn buffer
        | .data t bytes =>
            let buffer' := buffer ++ bytes
            if tgt ≤ buffer'.length ∧ buffer'.getLast? = some 0x30 then
              .ackReturn buffer'
            else if 0xC1 ∈ buffer' ∨ 0xC2 ∈ buffer' then
              .nackReturn
            else
              spLoop tgt rest t buffer'

/-- `sendPacket cmd params expectedDataBytes` (src/script.js 204–243), with
the transport's read results supplied as `evs`.  The outgoing packet is
payload `[cmd, ...params]` plus a 2-byte checksum, fixing
`packet.length = params.length + 3`. -/
def sendPacketModel (cmd : Nat) (params : List Nat) (expectedDataBytes : Nat)
    (evs : List ReadEv) : SPOutcome :=
  spLoop (targetLength ((cmd :: params).length + 2) expectedDataBytes) evs 0 []

/-- The value the caller of `sendPacket` receives: `some v` when the function
returns JavaScript value `v` (`some bytes` for a buffer, `none` inside for
`null`), and `none` when it never returns. -/
def SPOutcome.returns : SPOutcome → Option (Option (List Nat))
  | .ackReturn b => some (some b)
  | .nackReturn => some none
  | .timeoutReturn b => some (if b.isEmpty then none else some b)
  | .blocked => none

/-- Outcome of the single response read in `sendCommand`
(src/script.js 528–533). -/
inductive SCOutcome where
  | value (bytes : List Nat)
  | error
  | blocked
deriving DecidableEq, Repr

/-- `sendCommand`'s wait for a response (src/script.js 530–533): one
`await reader.read()` with no deadline of any kind.  `none` models a transport
that never yields: the await never resumes. -/
def sendCommandRead : Option ReadEv → SCOutcome
  | none => .blocked
  | some .closed => .error
  | some (.data _ bytes) => .value bytes

/-! ## Chunked EEPROM read (src/script.js 266–313) -/

/-- Offsets visited by `for (let i = 0; i < total; i += step)`.  The fuel
argument bounds the number of iterations; `total` iterations always suffice
when `step ≥ 1`, so `chunkOffsets` instantiates the fuel with `total`. -/
def forLoopOffsets (step : Nat) : Nat → Nat → Nat → List Nat
  | 0, _, _ => []
  | fuel + 1, i, total =>
      if i < total then i :: forLoopOffsets step fuel (i + step) total else []

/-- The loop header `for (let i = 0; i < totalSize; i += chunkSize)`
(src/script.js 272). -/
def chunkOffsets (total step : Nat) : List Nat := forLoopOffsets step total 0 total

/-- The body of the read loop (src/script.js 272–303).  For the chunk at
offset `i`: send `CMD.SetAddr = 0xFF` with `[0x00, addrHi, addrLo]` for the
absolute address `0x2000 + i`, then `CMD.ReadEE = 0x03` requesting
`chunkSize = 32` bytes; a `null` response breaks out of the loop, otherwise
`rawResp.slice(4, 4 + 32)` is appended to the accumulated data.  `resp i` is
the value `sendPacket` returned for the read command of the chunk at offset
`i` (the set-address response is awaited but not inspected).  The first
component collects every (command, params) pair handed to `sendPacket`, in
order. -/
def readChunkLoop (resp : Nat → Option (List Nat)) :
    List Nat → List (Nat × List Nat) × List Nat
  | [] => ([], [])
  | i :: rest =>
      let addr := 0x2000 + i
      let setCmd : Nat × List Nat := (0xFF, [0x00, (addr >>> 8) &&& 0xFF, addr &&& 0xFF])
      let readCmd : Nat × List Nat := (0x03, [32])
      match resp i with
      | none => ([setCmd, readCmd], [])
      | some raw =>
          let next := readChunkLoop resp rest
          (setCmd :: readCmd :: next.1, ((raw.drop 4).take 32) ++ next.2)

/-- What `handleConnection` does with the accumulated bytes
(src/script.js 305–313). -/
inductive ReadAllOutcome where
  | loaded (image : List Nat)
  | incomplete
deriving DecidableEq, Repr

/-- The read-all path of `handleConnection`: run the chunk loop over region
length 176 with chunk size 32, then hand the accumulated bytes to
`parseSettings` iff `fullData.length >= 100` (line 305), otherwise report the
read as incomplete. -/
def readAllResult (resp : Nat → Option (List Nat)) : ReadAllOutcome :=
  let fullData := (readChunkLoop resp (chunkOffsets 176 32)).2
  if 100 ≤ fullData.length then .loaded fullData else .incomplete

/-- The commands issued by the same read-all path, in order. -/
def readAllLog (resp : Nat → Option (List Nat)) : List (Nat × List Nat) :=
  (readChunkLoop resp (chunkOffsets 176 32)).1

/-! ## Settings codec (src/script.js 173–178, 326–339, 385–403) -/

/-- The `OFFSET` table (src/script.js 173–178). -/
def OFFSET.DIR : Nat := 0x11
def OFFSET.BI_DIR : Nat := 0x12
def OFFSET.SINE : Nat := 0x13
def OFFSET.COMP_PWM : Nat := 0x14
def OFFSET.VAR_PWM : Nat := 0x15
def OFFSET.STUCK : Nat := 0x16
def OFFSET.TIMING : Nat := 0x17
def OFFSET.PWM_FREQ : Nat := 0x18
def OFFSET.START_POWER : Nat := 0x19
def OFFSET.KV : Nat := 0x1A
def OFFSET.POLES : Nat := 0x1B
def OFFSET.BRAKE_STOP : Nat := 0x1C
def OFFSET.STALL : Nat := 0x1D
def OFFSET.BEEP : Nat := 0x1E
def OFFSET.LVC : Nat := 0x24
def OFFSET.SINE_RANGE : Nat := 0x28
def OFFSET.BRAKE_STR : Nat := 0x29

/-- Every byte offset named in the `OFFSET` table. -/
def OFFSET.values : List Nat :=
  [OFFSET.DIR, OFFSET.BI_DIR, OFFSET.SINE, OFFSET.COMP_PWM, OFFSET.VAR_PWM,
   OFFSET.STUCK, OFFSET.TIMING, OFFSET.PWM_FREQ, OFFSET.START_POWER,
   OFFSET.KV, OFFSET.POLES, OFFSET.BRAKE_STOP, OFFSET.STALL, OFFSET.BEEP,
   OFFSET.LVC, OFFSET.SINE_RANGE, OFFSET.BRAKE_STR]

/-- The structured settings the UI exchanges with the codec: the values read
from / written to the form controls in `handleSave` and `parseSettings`.
Numeric values are rationals because the stored KV byte is produced by float
division.  The `ramp` display value has no backing byte in the image and is
not part of the codec (spec §9). -/
structure SettingsRecord where
  power : ℚ
  range : ℚ
  stopPower : ℚ
  timing : ℚ
  beep : ℚ
  kv : ℚ
  poles : ℚ
  brakeOnStop : Bool
  reverse : Bool
  compPwm : Bool
  varPwm : Bool
  stall : Bool
  stuck : Bool
deriving DecidableEq, Repr

/-- JavaScript boolean-to-byte: `checked ? 1 : 0`. -/
def boolToNum (b : Bool) : ℚ := if b then 1 else 0

/-- JavaScript `x || d` for numbers: `0` (and an `undefined` read, which we
fold into the default of `getD`) selects the default. -/
def jsOr (x d : ℚ) : ℚ := if x = 0 then d else x

/-- The KV encoding on src/script.js line 332:
`Math.max(0, (parseInt(kv) - 20) / 40)` — note there is no flooring here. -/
def encodeKV (kv : ℚ) : ℚ := max 0 ((kv - 20) / 40)

/-- The KV decoding on src/script.js line 392: `((data[KV] || 50) * 40) + 20`. -/
def decodeKV (raw : ℚ) : ℚ := (jsOr raw 50) * 40 + 20

/-- The buffer update in `handleSave` (src/script.js 326–339): copy
`originalSettings`, then overwrite the thirteen offsets in source order. -/
def handleSaveEncode (image : List ℚ) (r : SettingsRecord) : List ℚ :=
  ((((((((((((image.set OFFSET.START_POWER r.power).set
    OFFSET.SINE_RANGE r.range).set
    OFFSET.BRAKE_STR r.stopPower).set
    OFFSET.TIMING r.timing).set
    OFFSET.BEEP r.beep).set
    OFFSET.KV (encodeKV r.kv)).set
    OFFSET.POLES r.poles).set
    OFFSET.BRAKE_STOP (boolToNum r.brakeOnStop)).set
    OFFSET.DIR (boolToNum r.reverse)).set
    OFFSET.COMP_PWM (boolToNum r.compPwm)).set
    OFFSET.VAR_PWM (boolToNum r.varPwm)).set
    OFFSET.STALL (boolToNum r.stall)).set
    OFFSET.STUCK (boolToNum r.stuck)

/-- `parseSettings` (src/script.js 385–403): numeric fields read as
`data[offset] || default`, the KV field through `decodeKV`, boolean fields as
`data[offset] === 1`.  An out-of-range access yields `undefined`, which both
in `x || d` and in `x === 1` behaves like the 0 default of `getD`. -/
def parseSettings (data : List ℚ) : SettingsRecord where
  power := jsOr (data.getD OFFSET.START_POWER 0) 5
  range := jsOr (data.getD OFFSET.SINE_RANGE 0) 25
  stopPower := jsOr (data.getD OFFSET.BRAKE_STR 0) 2
  timing := jsOr (data.getD OFFSET.TIMING 0) 15
  beep := jsOr (data.getD OFFSET.BEEP 0) 40
  kv := decodeKV (data.getD OFFSET.KV 0)
  poles := jsOr (data.getD OFFSET.POLES 0) 14
  brakeOnStop := decide (data.getD OFFSET.BRAKE_STOP 0 = 1)
  reverse := decide (data.getD OFFSET.DIR 0 = 1)
  compPwm := decide (data.getD OFFSET.COMP_PWM 0 = 1)
  varPwm := decide (data.getD OFFSET.VAR_PWM 0 = 1)
  stall := decide (data.getD OFFSET.STALL 0 = 1)
  stuck := decide (data.getD OFFSET.STUCK 0 = 1)

/-- The `ToUint8` coercion applied elementwise by `new Uint8Array(payload)` in
`sendPacket` (src/script.js 207): truncate toward zero, reduce mod 256.  It is
stated for the nonnegative operands that occur in these packets, where
truncation coincides with the floor. -/
def jsUint8 (x : ℚ) : Nat := (⌊x⌋).toNat % 256

/-- The byte sequence `new Uint8Array([cmd, ...params])` that `sendPacket`
checksums and writes (src/script.js 205–207), before the checksum bytes are
appended. -/
def packetBytes (cmd : Nat) (params : List ℚ) : List Nat :=
  ((cmd : ℚ) :: params).map jsUint8

/-- A 39-byte `sendPacket` response for a 32-byte chunk read: 4 echo bytes,
32 payload bytes, two checksum bytes that do NOT match the payload's Variant A
checksum, and the trailing ACK `0x30`. -/
def ackedReadResponse : List Nat :=
  [0x03, 32, 9, 9] ++ List.replicate 32 0x07 ++ [0x00, 0x00, 0x30]

/-- A transport oracle on which the first four chunk reads succeed with full
39-byte responses and the fifth returns `null`. -/
def respFourChunks : Nat → Option (List Nat) :=
  fun i => if i < 128 then some ackedReadResponse else none

/-- A transport oracle on which the first two chunk reads succeed with full
39-byte responses and the third (chunk 3 of 6) returns `null`. -/
def respTwoChunks : Nat → Option (List Nat) :=
  fun i => if i < 64 then some ackedReadResponse else none

/-- A settings record whose numeric values match the `default` preset plus
KV 2000 and poles 14: every numeric byte is nonzero and KV is above 20. -/
def presetRecord : SettingsRecord :=
  ⟨5, 25, 2, 15, 40, 2000, 14, true, false, true, false, true, true⟩

/-- The `trail` preset as a settings record (stop power 0, KV 2000,
poles 14): a value set the UI itself offers. -/
def trailRecord : SettingsRecord :=
  ⟨5, 15, 0, 15, 60, 2000, 14, true, false, true, false, true, true⟩

/-- A concrete 176-byte memory image with every byte equal to 3. -/
def exampleImage : List ℚ := List.replicate 176 3

/-! ## Helper lemmas -/

/-- The branch condition of the Variant A inner loop, in terms of bits. -/
theorem bitCondA (x c : Nat) :
    (((x &&& 1) ^^^ (c &&& 1)) ≠ 0) ↔ ((x.testBit 0 != c.testBit 0) = true) := by
  rcases Nat.mod_two_eq_zero_or_one x with hx | hx <;>
    rcases Nat.mod_two_eq_zero_or_one c with hc | hc <;>
      simp [Nat.and_one_is_mod, Nat.testBit_zero, hx, hc]

/-- The shifting inner loop of `crc16A` consumes exactly the bits
`j, j+1, …` of the byte, LSB first. -/
theorem crcAInner_eq_specFrom (x : Nat) :
    ∀ n j c, crcAInner n (x >>> j) c = crcASpecFrom x n j c := by
  intro n
  induction n with
  | zero => intro j c; rfl
  | succ n ih =>
      intro j c
      have hb : (x >>> j).testBit 0 = x.testBit j := by
        simp [Nat.testBit_shiftRight]
      have harg : (if ((x >>> j) &&& 1) ^^^ (c &&& 1) ≠ 0
            then (c >>> 1) ^^^ 0xA001 else c >>> 1) = crcASpecBit x j c := by
        unfold crcASpecBit
        exact if_congr ((bitCondA (x >>> j) c).trans (by rw [hb])) rfl rfl
      calc crcAInner (n + 1) (x >>> j) c
          = crcAInner n ((x >>> j) >>> 1) (crcASpecBit x j c) := by
            rw [crcAInner, harg]
        _ = crcAInner n (x >>> (j + 1)) (crcASpecBit x j c) := by
            rw [Nat.shiftRight_add]
        _ = crcASpecFrom x (n + 1) j c := by
            rw [crcASpecFrom]; exact ih (j + 1) (crcASpecBit x j c)

/-- Fold-level equality of the code and claim forms of Variant A. -/
theorem crc16A_fold_eq (data : List Nat) :
    ∀ c, data.foldl (fun crc b => crcAInner 8 b crc) c
      = data.foldl (fun crc b => crcASpecFrom b 8 0 crc) c := by
  induction data with
  | nil => intro c; rfl
  | cons b rest ih =>
      intro c
      simp only [List.foldl_cons]
      rw [show crcAInner 8 b c = crcASpecFrom b 8 0 c from by
        have h := crcAInner_eq_specFrom b 8 0 c
        rwa [Nat.shiftRight_zero] at h]
      exact ih _

/-- Bit 15 test against the `0x8000` mask. -/
theorem and_0x8000_ne_zero (c : Nat) : c &&& 0x8000 ≠ 0 ↔ c.testBit 15 = true := by
  have h8 : (0x8000 : Nat) = 2 ^ 15 := by norm_num
  constructor
  · intro h
    obtain ⟨i, hi⟩ := Nat.ne_zero_implies_bit_true h
    rw [Nat.testBit_and, h8, Nat.testBit_two_pow] at hi
    simp only [Bool.and_eq_true, decide_eq_true_eq] at hi
    exact hi.2 ▸ hi.1
  · intro h hz
    have h15 : (c &&& 0x8000).testBit 15 = true := by
      rw [Nat.testBit_and, h, h8, Nat.testBit_two_pow]
      simp
    rw [hz] at h15
    simp [Nat.zero_testBit] at h15

/-- Left-shift-then-XOR commutes with the 16-bit mask. -/
theorem shiftLeft_xor_and_mask (c k : Nat) :
    ((c <<< 1) ^^^ k) &&& 0xFFFF = (((c &&& 0xFFFF) <<< 1) ^^^ k) &&& 0xFFFF := by
  apply Nat.eq_of_testBit_eq
  intro i
  have h16 : (0xFFFF : Nat) = 2 ^ 16 - 1 := by norm_num
  rw [h16]
  simp only [Nat.testBit_and, Nat.testBit_xor, Nat.testBit_shiftLeft,
    Nat.testBit_two_pow_sub_one]
  by_cases hi : i < 16
  · by_cases h1 : 1 ≤ i
    · simp [hi, h1, Nat.le_of_lt, show i - 1 < 16 by omega]
    · have h0 : i = 0 := by omega
      subst h0
      simp
  · simp [hi]

/-- XOR-ing a byte shifted into the high half commutes with the 16-bit mask
once the byte is reduced mod 256. -/
theorem xor_byte_and_mask (c b : Nat) :
    (c ^^^ (b <<< 8)) &&& 0xFFFF
      = ((c &&& 0xFFFF) ^^^ ((b % 256) <<< 8)) &&& 0xFFFF := by
  apply Nat.eq_of_testBit_eq
  intro i
  have h16 : (0xFFFF : Nat) = 2 ^ 16 - 1 := by norm_num
  have h256 : (256 : Nat) = 2 ^ 8 := by norm_num
  rw [h16, h256]
  simp only [Nat.testBit_and, Nat.testBit_xor, Nat.testBit_shiftLeft,
    Nat.testBit_two_pow_sub_one, Nat.testBit_mod_two_pow]
  by_cases hi : i < 16
  · by_cases h8 : 8 ≤ i
    · simp [hi, h8, show i - 8 < 8 by omega]
    · simp [hi, h8]
  · simp [hi]

/-- One Variant B step agrees with the 16-bit reference step modulo the
16-bit mask. -/
theorem crcBStep_mask (c : Nat) :
    (if c &&& 0x8000 ≠ 0 then (c <<< 1) ^^^ 0x1021 else c <<< 1) &&& 0xFFFF
      = xmodemStep (c &&& 0xFFFF) := by
  have hbit : (c &&& 0xFFFF).testBit 15 = c.testBit 15 := by
    have h16 : (0xFFFF : Nat) = 2 ^ 16 - 1 := by norm_num
    rw [h16, Nat.testBit_and, Nat.testBit_two_pow_sub_one]
    simp
  unfold xmodemStep
  rw [hbit]
  by_cases h : c.testBit 15
  · rw [if_pos ((and_0x8000_ne_zero c).mpr h), if_pos h]
    exact shiftLeft_xor_and_mask c 0x1021
  · rw [if_neg (fun hc => h ((and_0x8000_ne_zero c).mp hc)), if_neg (by simp [h])]
    have hk := shiftLeft_xor_and_mask c 0
    simpa using hk

/-- The Variant B inner loop agrees with eight reference XMODEM steps modulo
the 16-bit mask. -/
theorem crcBInner_mask : ∀ n c, (crcBInner n c) &&& 0xFFFF = xmodemIter n (c &&& 0xFFFF) := by
  intro n
  induction n with
  | zero => intro c; rfl
  | succ n ih =>
      intro c
      rw [crcBInner, xmodemIter, ih, crcBStep_mask]

/-- Fold-level agreement of `crc16B` with the 16-bit reference fold. -/
theorem crc16B_fold_eq (data : List Nat) :
    ∀ c, (data.foldl (fun crc b => crcBInner 8 (crc ^^^ (b <<< 8))) c) &&& 0xFFFF
      = data.foldl (fun crc b => xmodemIter 8 ((crc ^^^ ((b % 256) <<< 8)) &&& 0xFFFF))
          (c &&& 0xFFFF) := by
  induction data with
  | nil => intro c; rfl
  | cons b rest ih =>
      intro c
      simp only [List.foldl_cons]
      rw [ih, crcBInner_mask, xor_byte_and_mask]

/-- Reassembling a 16-bit value from its high and low bytes. -/
theorem bytes_reassemble (n : Nat) (h : n < 65536) :
    ((n >>> 8) &&& 0xFF) * 256 + (n &&& 0xFF) = n := by
  have hm : (0xFF : Nat) = 2 ^ 8 - 1 := by norm_num
  have hpow : (2 : Nat) ^ 8 = 256 := by norm_num
  have h1 : n &&& 0xFF = n % 256 := by
    rw [hm, Nat.and_pow_two_sub_one_eq_mod, hpow]
  have h2 : n >>> 8 = n / 256 := by
    rw [Nat.shiftRight_eq_div_pow, hpow]
  have h3 : (n / 256) &&& 0xFF = n / 256 := by
    have hlt : n / 256 < 256 := by omega
    rw [hm, Nat.and_pow_two_sub_one_eq_mod, hpow, Nat.mod_eq_of_lt hlt]
  rw [h2, h3, h1]
  omega

/-! ## Claim theorems: checksums -/

set_option maxRecDepth 10000 in
/-- Claim C7: the Variant A checksum is a pure function of the byte sequence
computed exactly as described — for each byte, for 8 iterations, if (current
input bit XOR checksum bit 0) is set the checksum is right-shifted and XORed
with `0xA001`, otherwise right-shifted only, consuming each byte bit-by-bit
LSB first — and the result is a 16-bit value.  Anchors: the spec vector
`[0x30, 0x00]` and the standard CRC-16/ARC check value `0xBB3D` over the
bytes of the string of digits 1–9. -/
theorem c7_variantA_checksum_as_described :
    (∀ data : List Nat, crc16A data = crc16ASpec data) ∧
    (∀ data : List Nat, crc16A data < 65536) ∧
    crc16A [0x30, 0x00] = 0x14 ∧
    crc16A [0x31, 0x32, 0x33, 0x34, 0x35, 0x36, 0x37, 0x38, 0x39] = 0xBB3D := by
  refine ⟨fun data => ?_, fun data => ?_, by decide, by decide⟩
  · unfold crc16A crc16ASpec
    rw [crc16A_fold_eq]
  · unfold crc16A
    have h := @Nat.and_le_right (data.foldl (fun crc b => crcAInner 8 b crc) 0) 0xFFFF
    omega

set_option maxRecDepth 10000 in
/-- Claim C8: the Variant B checksum equals CRC-16/XMODEM (16-bit register,
polynomial `0x1021`, initial value 0) — the unmasked JavaScript loop agrees
with the genuinely 16-bit reference algorithm — the standard check value
`0x31C3` is obtained over the digits 1–9, and `sendCommand` serializes the
checksum into the packet high byte first, so that reading the last two packet
bytes big-endian yields the checksum. -/
theorem c8_variantB_is_xmodem :
    (∀ data : List Nat, crc16B data = crc16Xmodem data) ∧
    crc16B [0x31, 0x32, 0x33, 0x34, 0x35, 0x36, 0x37, 0x38, 0x39] = 0x31C3 ∧
    (∀ (cmd addr : Nat) (params : List Nat),
      sendCommandPacket cmd addr params
        = ([0x2F, cmd, (addr >>> 8) &&& 0xFF, addr &&& 0xFF, params.length] ++ params)
            ++ [(crc16B ([cmd, (addr >>> 8) &&& 0xFF, addr &&& 0xFF, params.length]
                  ++ params) >>> 8) &&& 0xFF,
                crc16B ([cmd, (addr >>> 8) &&& 0xFF, addr &&& 0xFF, params.length]
                  ++ params) &&& 0xFF]) ∧
    (∀ (cmd addr : Nat) (params : List Nat),
      ((crc16B ([cmd, (addr >>> 8) &&& 0xFF, addr &&& 0xFF, params.length] ++ params)
          >>> 8) &&& 0xFF) * 256
        + (crc16B ([cmd, (addr >>> 8) &&& 0xFF, addr &&& 0xFF, params.length] ++ params)
            &&& 0xFF)
        = crc16B ([cmd, (addr >>> 8) &&& 0xFF, addr &&& 0xFF, params.length] ++ params)) := by
  refine ⟨fun data => ?_, by decide, fun cmd addr params => rfl, fun cmd addr params => ?_⟩
  · unfold crc16B crc16Xmodem
    have h := crc16B_fold_eq data 0
    simpa using h
  · apply bytes_reassemble
    unfold crc16B
    have h := @Nat.and_le_right
      (([cmd, (addr >>> 8) &&& 0xFF, addr &&& 0xFF, params.length] ++ params).foldl
        (fun crc b => crcBInner 8 (crc ^^^ (b <<< 8))) 0) 0xFFFF
    omega

/-! ## Claim theorems: transport loop -/

/-- Claim C2 (code bug): `sendPacket` performs no checksum verification on
inbound responses.  A 39-byte chunk-read response whose two trailing checksum
bytes (read LSB-first, as the protocol serializes Variant A checksums) do not
match the locally recomputed Variant A checksum of its 32 payload bytes is
nevertheless returned as a success, because acceptance only tests the buffer
length and the trailing ACK byte `0x30`. -/
theorem c2_checksum_never_verified :
    sendPacketModel 0x03 [32] 32 [ReadEv.data 0 ackedReadResponse]
        = SPOutcome.ackReturn ackedReadResponse ∧
    (ackedReadResponse.getD 36 0) + 256 * (ackedReadResponse.getD 37 0)
        ≠ crc16A ((ackedReadResponse.drop 4).take 32) := by
  constructor
  · decide
  · decide

/-- Claim C9 counterexample: a transport that never yields bytes and never
closes makes `sendPacket` wait forever — its read loop issues an
`await reader.read()` that never resolves before the 1000ms budget is ever
re-checked — and `sendCommand`'s single read waits forever likewise.  This
refutes the claim that no wait for response bytes can block indefinitely. -/
theorem c9_counterexample_unbounded_wait :
    sendPacketModel 0x03 [32] 32 [] = SPOutcome.blocked ∧
    sendCommandRead none = SCOutcome.blocked :=
  ⟨rfl, rfl⟩

/-- Claim C9 (corrected): the read loop of `sendPacket` re-checks its 1000ms
elapsed-time budget before every read and stops issuing reads once it has
elapsed, and it terminates whenever the stream closes; but an individual
`reader.read()` carries no deadline — on a transport that never yields and
never closes the loop blocks forever, and `sendCommand`'s single read is
unconditionally unbounded. -/
theorem c9_reads_bounded_only_between_reads :
    (∀ (tgt : Nat) (evs : List ReadEv) (now : Nat) (buf : List Nat), 1000 ≤ now →
        spLoop tgt evs now buf = SPOutcome.timeoutReturn buf) ∧
    (∀ (tgt : Nat) (evs : List ReadEv) (now : Nat) (buf : List Nat), ReadEv.closed ∈ evs →
        spLoop tgt evs now buf ≠ SPOutcome.blocked) ∧
    sendCommandRead none = SCOutcome.blocked := by
  refine ⟨fun tgt evs now buf h => ?_, fun tgt evs => ?_, rfl⟩
  · cases evs <;> simp [spLoop, h]
  · induction evs with
    | nil => intro now buf h; simp at h
    | cons ev rest ih =>
        intro now buf h
        by_cases hn : 1000 ≤ now
        · simp [spLoop, hn]
        · cases ev with
          | closed => simp [spLoop, hn]
          | data t bytes =>
              have hr : ReadEv.closed ∈ rest := by
                rcases List.mem_cons.mp h with h1 | h1
                · exact absurd h1 (by simp)
                · exact h1
              simp only [spLoop, if_neg hn]
              split
              · simp
              · split
                · simp
                · exact ih t (buf ++ bytes) hr

/-- Claim C9 witness: the budget check and the stream-closure exit at concrete
inputs. -/
theorem c9_reads_bounded_only_between_reads_witness :
    ((1000 : Nat) ≤ 1000 ∧ spLoop 5 [] 1000 [1] = SPOutcome.timeoutReturn [1]) ∧
    (ReadEv.closed ∈ [ReadEv.closed] ∧
      spLoop 5 [ReadEv.closed] 0 [] ≠ SPOutcome.blocked) :=
  ⟨⟨by decide, c9_reads_bounded_only_between_reads.1 5 [] 1000 [1] (by decide)⟩,
   ⟨by decide, c9_reads_bounded_only_between_reads.2.1 5 [ReadEv.closed] 0 [] (by decide)⟩⟩

/-- Claim C10: when the loop budget elapses (or the stream closes) before the
expected byte count arrived, `sendPacket` returns the accumulated partial
buffer; the caller sees `null` exactly when zero bytes arrived.  Concretely, a
timed-out 3-byte partial response (shorter than the 39-byte target and not
ACK-terminated) reaches the caller as a non-null buffer, exactly like a
complete acknowledged response does. -/
theorem c10_partial_buffer_returned_as_success :
    (∀ (cmd : Nat) (params : List Nat) (e : Nat) (evs : List ReadEv) (b : List Nat),
        sendPacketModel cmd params e evs = SPOutcome.timeoutReturn b →
        (sendPacketModel cmd params e evs).returns
          = some (if b.isEmpty then none else some b)) ∧
    (sendPacketModel 0x03 [32] 32 [ReadEv.data 0 [1, 2, 3], ReadEv.data 1200 []]).returns
        = some (some [1, 2, 3]) ∧
    ([1, 2, 3] : List Nat).length < targetLength 4 32 ∧
    ([1, 2, 3] : List Nat).getLast? ≠ some 0x30 ∧
    (sendPacketModel 0x03 [32] 32 [ReadEv.data 0 ackedReadResponse]).returns
        = some (some ackedReadResponse) := by
  refine ⟨fun cmd params e evs b h => ?_, by decide, by decide, by decide, by decide⟩
  rw [h]
  rfl

/-- Claim C10 witness: the timeout-return clause applied to the concrete
partial trace. -/
theorem c10_partial_buffer_returned_as_success_witness :
    sendPacketModel 0x03 [32] 32 [ReadEv.data 0 [1, 2, 3], ReadEv.data 1200 []]
        = SPOutcome.timeoutReturn [1, 2, 3] ∧
    (sendPacketModel 0x03 [32] 32 [ReadEv.data 0 [1, 2, 3], ReadEv.data 1200 []]).returns
        = some (if ([1, 2, 3] : List Nat).isEmpty then none else some [1, 2, 3]) :=
  ⟨by decide,
   c10_partial_buffer_returned_as_success.1 0x03 [32] 32
     [ReadEv.data 0 [1, 2, 3], ReadEv.data 1200 []] [1, 2, 3] (by decide)⟩

/-! ## Claim theorems: chunked read orchestration -/

/-- Claim C1 counterexample: a transfer in which chunks 1–4 succeed and
chunk 5 fails accumulates 128 bytes, and the orchestrator nevertheless yields
the 128-byte image to `parseSettings` — the accumulated byte count does not
equal 176, refuting the exactly-176 completion policy. -/
theorem c1_counterexample_partial_image_exposed :
    readAllResult respFourChunks = ReadAllOutcome.loaded (List.replicate 128 7) ∧
    (List.replicate 128 (7 : Nat)).length ≠ 176 := by
  constructor
  · decide
  · decide

/-- Claim C1 (corrected): the read-all path yields an image exactly when the
accumulated byte count is at least 100 (`fullData.length >= 100`), not when it
equals 176; in particular the claim's own example — chunk 3 of 6 failing
after 64 accumulated bytes — is reported as an incomplete read. -/
theorem c1_amended_loaded_iff_at_least_100 :
    (∀ (resp : Nat → Option (List Nat)) (img : List Nat),
        readAllResult resp = ReadAllOutcome.loaded img → 100 ≤ img.length) ∧
    readAllResult respTwoChunks = ReadAllOutcome.incomplete := by
  refine ⟨fun resp img h => ?_, by decide⟩
  unfold readAllResult at h
  by_cases hc : 100 ≤ ((readChunkLoop resp (chunkOffsets 176 32)).2).length
  · rw [if_pos hc] at h
    cases h
    exact hc
  · rw [if_neg hc] at h
    exact absurd h (by simp)

/-- Claim C1 witness: the at-least-100 bound applied to the concrete
four-chunk transfer. -/
theorem c1_amended_loaded_iff_at_least_100_witness :
    readAllResult respFourChunks = ReadAllOutcome.loaded (List.replicate 128 7) ∧
    100 ≤ (List.replicate 128 (7 : Nat)).length :=
  ⟨by decide,
   c1_amended_loaded_iff_at_least_100.1 respFourChunks (List.replicate 128 7) (by decide)⟩

/-- Claim C3 counterexample: the final (sixth) chunk's read command requests
32 bytes, not 16 — the twelfth command handed to `sendPacket` is
`(0x03, [32])`. -/
theorem c3_counterexample_final_chunk_requests_32 :
    (readAllLog fun _ => some ackedReadResponse).getD 11 (0, [])
        = (0x03, [32]) ∧
    ((0x03 : Nat), [(32 : Nat)]) ≠ (0x03, [16]) := by
  constructor
  · decide
  · decide

/-- Claim C3 (corrected): for region length 176 and chunk size 32 the
orchestrator performs exactly 6 chunk operations, each preceded by a
set-address command carrying the absolute address `0x2000 + offset` split
into high and low bytes; but every read command — including the final one —
requests 32 bytes, never 16. -/
theorem c3_amended_six_chunks_all_request_32 :
    chunkOffsets 176 32 = [0, 32, 64, 96, 128, 160] ∧
    (∀ resp : Nat → Option (List Nat), (∀ i, (resp i).isSome) →
      readAllLog resp =
        [(0xFF, [0x00, 0x20, 0x00]), (0x03, [32]),
         (0xFF, [0x00, 0x20, 0x20]), (0x03, [32]),
         (0xFF, [0x00, 0x20, 0x40]), (0x03, [32]),
         (0xFF, [0x00, 0x20, 0x60]), (0x03, [32]),
         (0xFF, [0x00, 0x20, 0x80]), (0x03, [32]),
         (0xFF, [0x00, 0x20, 0xA0]), (0x03, [32])]) := by
  refine ⟨by decide, fun resp h => ?_⟩
  obtain ⟨v0, h0⟩ := Option.isSome_iff_exists.mp (h 0)
  obtain ⟨v1, h1⟩ := Option.isSome_iff_exists.mp (h 32)
  obtain ⟨v2, h2⟩ := Option.isSome_iff_exists.mp (h 64)
  obtain ⟨v3, h3⟩ := Option.isSome_iff_exists.mp (h 96)
  obtain ⟨v4, h4⟩ := Option.isSome_iff_exists.mp (h 128)
  obtain ⟨v5, h5⟩ := Option.isSome_iff_exists.mp (h 160)
  unfold readAllLog
  rw [show chunkOffsets 176 32 = [0, 32, 64, 96, 128, 160] from by decide]
  simp only [readChunkLoop, h0, h1, h2, h3, h4, h5]
  decide

/-- Claim C3 witness: the command log on a transport that answers every
chunk. -/
theorem c3_amended_six_chunks_all_request_32_witness :
    readAllLog (fun _ => some []) =
      [(0xFF, [0x00, 0x20, 0x00]), (0x03, [32]),
       (0xFF, [0x00, 0x20, 0x20]), (0x03, [32]),
       (0xFF, [0x00, 0x20, 0x40]), (0x03, [32]),
       (0xFF, [0x00, 0x20, 0x60]), (0x03, [32]),
       (0xFF, [0x00, 0x20, 0x80]), (0x03, [32]),
       (0xFF, [0x00, 0x20, 0xA0]), (0x03, [32])] :=
  c3_amended_six_chunks_all_request_32.2 (fun _ => some []) (fun _ => rfl)

/-! ## Claim theorems: settings codec -/

/-- Decoding a boolean byte written by `handleSave` recovers the checkbox
state: `(checked ? 1 : 0) === 1` is `checked`. -/
theorem decide_boolToNum_eq_one (b : Bool) : decide (boolToNum b = 1) = b := by
  cases b <;> simp [boolToNum]

/-- The value `handleSave` stores for display KV 2000:
`Math.max(0, (2000 - 20) / 40)` is the rational 99/2 = 49.5. -/
theorem encodeKV_at_2000 : encodeKV 2000 = 99 / 2 := by
  unfold encodeKV
  rw [show ((2000 : ℚ) - 20) / 40 = 99 / 2 by norm_num]
  rw [max_eq_right (by norm_num : (0 : ℚ) ≤ 99 / 2)]

/-- Claim C4: for every input image and settings record, the image produced
by `handleSave`'s buffer update agrees with the input image at every offset
not named in the `OFFSET` table — only bytes named in the table are
overwritten. -/
theorem c4_encode_preserves_bytes_outside_offset_map (image : List ℚ)
    (r : SettingsRecord) (i : Nat) (h : i ∉ OFFSET.values) :
    (handleSaveEncode image r).getD i 0 = image.getD i 0 := by
  simp only [OFFSET.values, OFFSET.DIR, OFFSET.BI_DIR, OFFSET.SINE, OFFSET.COMP_PWM,
    OFFSET.VAR_PWM, OFFSET.STUCK, OFFSET.TIMING, OFFSET.PWM_FREQ, OFFSET.START_POWER,
    OFFSET.KV, OFFSET.POLES, OFFSET.BRAKE_STOP, OFFSET.STALL, OFFSET.BEEP, OFFSET.LVC,
    OFFSET.SINE_RANGE, OFFSET.BRAKE_STR, List.mem_cons, List.not_mem_nil, or_false,
    not_or] at h
  obtain ⟨h1, h2, h3, h4, h5, h6, h7, h8, h9, h10, h11, h12, h13, h14, h15, h16, h17⟩ := h
  simp only [handleSaveEncode, OFFSET.DIR, OFFSET.COMP_PWM, OFFSET.VAR_PWM, OFFSET.STUCK,
    OFFSET.TIMING, OFFSET.START_POWER, OFFSET.KV, OFFSET.POLES, OFFSET.BRAKE_STOP,
    OFFSET.STALL, OFFSET.BEEP, OFFSET.SINE_RANGE, OFFSET.BRAKE_STR,
    List.getD_eq_getElem?_getD]
  rw [List.getElem?_set_ne (by omega), List.getElem?_set_ne (by omega),
    List.getElem?_set_ne (by omega), List.getElem?_set_ne (by omega),
    List.getElem?_set_ne (by omega), List.getElem?_set_ne (by omega),
    List.getElem?_set_ne (by omega), List.getElem?_set_ne (by omega),
    List.getElem?_set_ne (by omega), List.getElem?_set_ne (by omega),
    List.getElem?_set_ne (by omega), List.getElem?_set_ne (by omega),
    List.getElem?_set_ne (by omega)]

/-- Claim C4 witness: offset 0 is not in the table and keeps its byte. -/
theorem c4_encode_preserves_bytes_outside_offset_map_witness :
    0 ∉ OFFSET.values ∧
    (handleSaveEncode exampleImage presetRecord).getD 0 0 = exampleImage.getD 0 0 :=
  ⟨by decide,
   c4_encode_preserves_bytes_outside_offset_map exampleImage presetRecord 0 (by decide)⟩

/-- Claim C5 counterexample: the `trail` preset record has stop power 0, a
value the UI itself offers; `parseSettings` turns the stored 0 byte back into
the default 2 (`data[offset] || 2`), so decode ∘ encode does not reproduce
the record. -/
theorem c5_counterexample_zero_field_decodes_to_default :
    (parseSettings (handleSaveEncode exampleImage trailRecord)).stopPower = 2 ∧
    trailRecord.stopPower = 0 ∧
    parseSettings (handleSaveEncode exampleImage trailRecord) ≠ trailRecord := by
  refine ⟨by decide, by decide, fun he => ?_⟩
  have h2 : (parseSettings (handleSaveEncode exampleImage trailRecord)).stopPower = 2 := by
    decide
  rw [he] at h2
  have h0 : trailRecord.stopPower = 0 := by decide
  rw [h0] at h2
  norm_num at h2

/-- Claim C5 (corrected): decode ∘ encode reproduces the record only when all
numeric fields are nonzero and the KV display value exceeds 20 — because
`parseSettings` replaces a 0 byte (or a 0 KV raw value) by the field's
default via `||`.  Under those hypotheses the round trip is exact on a
176-byte image. -/
theorem c5_amended_roundtrip_for_nonzero_fields (image : List ℚ) (r : SettingsRecord)
    (hlen : image.length = 176)
    (hp : r.power ≠ 0) (hr : r.range ≠ 0) (hs : r.stopPower ≠ 0)
    (ht : r.timing ≠ 0) (hb : r.beep ≠ 0) (hpl : r.poles ≠ 0)
    (hkv : 20 < r.kv) :
    parseSettings (handleSaveEncode image r) = r := by
  obtain ⟨p, rg, sp, tm, bp, kv, pl, b1, b2, b3, b4, b5, b6⟩ := r
  simp only at hp hr hs ht hb hpl hkv
  have hkvpos : (0 : ℚ) < (kv - 20) / 40 := div_pos (by linarith) (by norm_num)
  have hmax : encodeKV kv = (kv - 20) / 40 := max_eq_right hkvpos.le
  simp only [parseSettings, handleSaveEncode, OFFSET.DIR, OFFSET.COMP_PWM, OFFSET.VAR_PWM,
    OFFSET.STUCK, OFFSET.TIMING, OFFSET.START_POWER, OFFSET.KV, OFFSET.POLES,
    OFFSET.BRAKE_STOP, OFFSET.STALL, OFFSET.BEEP, OFFSET.SINE_RANGE, OFFSET.BRAKE_STR,
    List.getD_eq_getElem?_getD, List.getElem?_set, List.length_set, hlen,
    SettingsRecord.mk.injEq]
  norm_num
  simp only [jsOr, hmax, decide_boolToNum_eq_one]
  refine ⟨?_, ?_, ?_, ?_, ?_, ?_, ?_⟩
  · rw [if_neg hp]
  · rw [if_neg hr]
  · rw [if_neg hs]
  · rw [if_neg ht]
  · rw [if_neg hb]
  · unfold decodeKV jsOr
    rw [if_neg (ne_of_gt hkvpos)]
    rw [div_mul_cancel₀ _ (by norm_num : (40 : ℚ) ≠ 0)]
    ring
  · rw [if_neg hpl]
    simp

/-- Claim C5 witness: the round trip on a concrete image and the default
preset record (all numeric fields nonzero, KV 2000). -/
theorem c5_amended_roundtrip_for_nonzero_fields_witness :
    exampleImage.length = 176 ∧
    presetRecord.power ≠ 0 ∧ presetRecord.range ≠ 0 ∧ presetRecord.stopPower ≠ 0 ∧
    presetRecord.timing ≠ 0 ∧ presetRecord.beep ≠ 0 ∧ presetRecord.poles ≠ 0 ∧
    20 < presetRecord.kv ∧
    parseSettings (handleSaveEncode exampleImage presetRecord) = presetRecord :=
  ⟨by simp [exampleImage], by norm_num [presetRecord], by norm_num [presetRecord],
   by norm_num [presetRecord], by norm_num [presetRecord], by norm_num [presetRecord],
   by norm_num [presetRecord], by norm_num [presetRecord],
   c5_amended_roundtrip_for_nonzero_fields exampleImage presetRecord
     (by simp [exampleImage]) (by norm_num [presetRecord]) (by norm_num [presetRecord])
     (by norm_num [presetRecord]) (by norm_num [presetRecord]) (by norm_num [presetRecord])
     (by norm_num [presetRecord]) (by norm_num [presetRecord])⟩

/-- Claim C6 counterexample: the codec line
`newBytes[OFFSET.KV] = Math.max(0, (kv - 20) / 40)` stores the rational
49.5 for display value 2000 — not the byte 49: there is no truncation in the
encode step itself. -/
theorem c6_counterexample_encode_stores_half :
    encodeKV 2000 ≠ 49 ∧ encodeKV 2000 = 99 / 2 := by
  constructor
  · rw [encodeKV_at_2000]
    norm_num
  · exact encodeKV_at_2000

/-- Claim C6 (corrected): encoding display value 2000 stores the unfloored
value 49.5 in the image; the byte 49 only arises when `sendPacket` serializes
the payload through `new Uint8Array`, whose ToUint8 coercion truncates.
Decoding raw byte 49 yields `49 * 40 + 20 = 1980` — the device round trip is
lossy by exactly this serialization truncation — while decoding the
in-memory value 49.5 yields 2000 again. -/
theorem c6_amended_truncation_happens_at_serialization :
    jsUint8 (encodeKV 2000) = 49 ∧
    packetBytes 0x01 [encodeKV 2000] = [1, 49] ∧
    decodeKV 49 = 1980 ∧
    decodeKV (encodeKV 2000) = 2000 := by
  refine ⟨?_, ?_, ?_, ?_⟩
  · rw [encodeKV_at_2000]
    unfold jsUint8
    norm_num
    rfl
  · simp [packetBytes, encodeKV_at_2000, jsUint8]
    norm_num
    rfl
  · norm_num [decodeKV, jsOr]
  · rw [encodeKV_at_2000]
    norm_num [decodeKV, jsOr]

end Crawler
